import Mathlib

/-!
Verification of the Eco-Accounting emission-factor resolution and
aggregation engine, as specified for the `carbon_calculator` service and
the emissions dashboard page.

The backend calculator module itself is not part of the checked-in
sources (only its documentation, demo transcripts and frontend callers
are), so the Resolver/Aggregator definitions below are modelled from the
specification text; the dashboard aggregation (`totalEmissions`,
`byScope`, average per bill) is embedded directly from
`frontend/app/dashboard/emissions/page.tsx`.

Numeric values (quantities, factors, totals) are modelled as exact
rationals, following the spec's fixed-precision decimal semantics.
-/

namespace Eco

/-- Modelled from the spec: the closed enumeration of utility categories
(electricity, fuel, water, waste). -/
inductive Category where
  | electricity
  | fuel
  | water
  | waste
deriving DecidableEq, Repr

/-- Display name of a category, used for the tie-break ordering of the
breakdown (category name ascending). -/
def catName : Category → String
  | .electricity => "electricity"
  | .fuel => "fuel"
  | .water => "water"
  | .waste => "waste"

/-- Modelled from the spec: one immutable row of the emission-factor
reference table, keyed by (category, subtype, country, region) with the
region optional. -/
structure EmissionFactorEntry where
  category : Category
  subtype : String
  country : String
  region : Option String
  factor : ℚ
  unit : String
deriving DecidableEq, Repr

/-- Modelled from the spec: the error taxonomy — `UnknownFactorError`,
`UnitMismatchError`, `InvalidQuantityError`. -/
inductive EcoError where
  | unknownFactor
  | unitMismatch
  | invalidQuantity
deriving DecidableEq, Repr

/-- Modelled from the spec: which tier of the fallback satisfied a
lookup — exact-region, country-default or global-default. -/
inductive MatchedScope where
  | exact
  | countryDefault
  | globalDefault
deriving DecidableEq, Repr

/-- Modelled from the spec: the value returned by `resolve` — factor,
unit and the tier that matched. -/
structure ResolveResult where
  factor : ℚ
  unit : String
  matched_scope : MatchedScope
deriving DecidableEq, Repr

/-- Tier-1 predicate: exact (category, subtype, country, region) match. -/
def matchesExact (c : Category) (sub country : String) (region : Option String)
    (e : EmissionFactorEntry) : Bool :=
  decide (e.category = c) && decide (e.subtype = sub) &&
    decide (e.country = country) && decide (e.region = region)

/-- Tier-2 predicate: (category, subtype, country) with no region — the
country-level default. -/
def matchesCountry (c : Category) (sub country : String)
    (e : EmissionFactorEntry) : Bool :=
  decide (e.category = c) && decide (e.subtype = sub) &&
    decide (e.country = country) && decide (e.region = none)

/-- Tier-3 predicate: (category, subtype) stored under the "default"
country with no region — the global/category default. -/
def matchesGlobal (c : Category) (sub : String)
    (e : EmissionFactorEntry) : Bool :=
  decide (e.category = c) && decide (e.subtype = sub) &&
    decide (e.country = "default") && decide (e.region = none)

/-- Modelled from the spec: `resolve(category, subtype, country, region?)`
tries the exact match, then the country default, then the global default,
and fails with `UnknownFactorError` when no tier matches. -/
def resolve (tbl : List EmissionFactorEntry) (c : Category)
    (sub country : String) (region : Option String) :
    Except EcoError ResolveResult :=
  match tbl.find? (matchesExact c sub country region) with
  | some e => .ok ⟨e.factor, e.unit, .exact⟩
  | none =>
    match tbl.find? (matchesCountry c sub country) with
    | some e => .ok ⟨e.factor, e.unit, .countryDefault⟩
    | none =>
      match tbl.find? (matchesGlobal c sub) with
      | some e => .ok ⟨e.factor, e.unit, .globalDefault⟩
      | none => .error .unknownFactor

/-- Modelled from the spec: a consumption record as the Resolver's and
Aggregator's input contract. -/
structure ConsumptionRecord where
  category : Category
  subtype : String
  country : String
  region : Option String
  quantity : ℚ
  unit : String
deriving DecidableEq, Repr

/-- Modelled from the spec: the fixed table of linear unit-conversion
scale factors (e.g. Wh→kWh); incompatible units yield `none`. -/
def unitScale (u v : String) : Option ℚ :=
  if u = v then some 1
  else if u = "Wh" ∧ v = "kWh" then some (1 / 1000)
  else if u = "kWh" ∧ v = "Wh" then some 1000
  else if u = "MWh" ∧ v = "kWh" then some 1000
  else if u = "kWh" ∧ v = "MWh" then some (1 / 1000)
  else none

/-- Modelled from the spec: the derived emission result — record
reference, resolved factor entry and total CO2e. -/
structure EmissionResult where
  record : ConsumptionRecord
  factor_entry : EmissionFactorEntry
  total_co2e : ℚ
deriving DecidableEq, Repr

/-- Modelled from the spec: `compute(record, factor_entry)` —
total_co2e = quantity × factor after linear unit conversion; a negative
quantity is `InvalidQuantityError`, incompatible units are
`UnitMismatchError`. -/
def compute (r : ConsumptionRecord) (e : EmissionFactorEntry) :
    Except EcoError EmissionResult :=
  if r.quantity < 0 then .error .invalidQuantity
  else
    match unitScale r.unit e.unit with
    | none => .error .unitMismatch
    | some s => .ok ⟨r, e, r.quantity * s * e.factor⟩

/-- Modelled from the spec: per-category subtotal of a collection of
emission results. -/
def subtotal (results : List EmissionResult) (c : Category) : ℚ :=
  ((results.filter fun x => decide (x.record.category = c)).map
    (·.total_co2e)).sum

/-- Canonical enumeration of the closed category type. -/
def allCategories : List Category :=
  [.electricity, .fuel, .water, .waste]

/-- Modelled from the spec: percent change against the previous period,
`(current - previous) / previous * 100`, undefined (`none`) when the
previous total is zero. -/
def percentChange (cur prev : ℚ) : Option ℚ :=
  if prev = 0 then none else some ((cur - prev) / prev * 100)

/-- Presentation order of the breakdown: descending subtotal, ties broken
by category name ascending. -/
def bdLe (x y : Category × ℚ) : Prop :=
  y.2 < x.2 ∨ (x.2 = y.2 ∧ catName x.1 ≤ catName y.1)

instance : DecidableRel bdLe := fun x y => by
  unfold bdLe; infer_instance

instance : IsTotal (Category × ℚ) bdLe := by
  constructor
  intro x y
  rcases lt_trichotomy x.2 y.2 with h | h | h
  · exact Or.inr (Or.inl h)
  · rcases le_total (catName x.1) (catName y.1) with hn | hn
    · exact Or.inl (Or.inr ⟨h, hn⟩)
    · exact Or.inr (Or.inr ⟨h.symm, hn⟩)
  · exact Or.inl (Or.inl h)

instance : IsTrans (Category × ℚ) bdLe := by
  constructor
  intro x y z hxy hyz
  rcases hxy with h1 | ⟨he1, hn1⟩
  · rcases hyz with h2 | ⟨he2, _⟩
    · exact Or.inl (h2.trans h1)
    · exact Or.inl (he2 ▸ h1)
  · rcases hyz with h2 | ⟨he2, hn2⟩
    · exact Or.inl (he1 ▸ h2)
    · exact Or.inr ⟨he1.trans he2, hn1.trans hn2⟩

/-- Modelled from the spec: the derived period summary — total, ordered
category breakdown, previous-period total and percent change. -/
structure PeriodSummary where
  total_co2e : ℚ
  breakdown : List (Category × ℚ)
  previous_period_total : ℚ
  percent_change : Option ℚ
deriving DecidableEq, Repr

/-- Modelled from the spec: `summarize(results, previousTotal)` — sums
total CO2e, builds the per-category breakdown for the categories present
(ordered by descending subtotal, ties by name ascending) and computes the
percent change against the previous-period total. -/
def summarize (results : List EmissionResult) (previousTotal : ℚ) :
    PeriodSummary :=
  let total := (results.map (·.total_co2e)).sum
  let present := allCategories.filter fun c =>
    results.any fun x => decide (x.record.category = c)
  { total_co2e := total
    breakdown := List.insertionSort bdLe (present.map fun c => (c, subtotal results c))
    previous_period_total := previousTotal
    percent_change := percentChange total previousTotal }

/-- Modelled from the spec: a batch run of `compute` over many
(record, factor entry) pairs, collecting the successful results and the
per-record failures side by side. -/
def computeBatch (inputs : List (ConsumptionRecord × EmissionFactorEntry)) :
    List EmissionResult × List (ConsumptionRecord × EcoError) :=
  (inputs.filterMap fun p =>
     match compute p.1 p.2 with
     | .ok res => some res
     | .error _ => none,
   inputs.filterMap fun p =>
     match compute p.1 p.2 with
     | .error err => some (p.1, err)
     | .ok _ => none)

/-- Modelled from the spec: batch `summarize` — one bad record does not
abort the batch; the summary is built from the successful results and the
failures are returned alongside it. -/
def summarizeBatch (inputs : List (ConsumptionRecord × EmissionFactorEntry))
    (previousTotal : ℚ) :
    PeriodSummary × List (ConsumptionRecord × EcoError) :=
  ((summarize (computeBatch inputs).1 previousTotal), (computeBatch inputs).2)

/-! ### Frontend dashboard aggregation

Embedded from `frontend/app/dashboard/emissions/page.tsx`: the fetched
emission rows, `totalEmissions`, the `byScope` grouping (a JS object
built by `reduce`, embedded as an insertion-ordered association list) and
the average-per-bill card. JS numbers are modelled as exact rationals. -/

/-- Embedded from the page: the fields of a fetched emission row that the
dashboard aggregation reads. A missing (or empty, hence falsy) category
string is grouped under "Other". -/
structure EmissionRow where
  id : ℕ
  category : Option String
  total_co2e : ℚ
deriving DecidableEq, Repr

/-- Embedded from the page: `emissions.reduce((sum, e) => sum + e.total_co2e, 0)`. -/
def totalEmissions (l : List EmissionRow) : ℚ :=
  l.foldl (fun s e => s + e.total_co2e) 0

/-- Embedded from the page: `e.category || 'Other'` — a missing or empty
(falsy) category falls into the "Other" bucket. -/
def scopeKey (c : Option String) : String :=
  match c with
  | none => "Other"
  | some s => if s = "" then "Other" else s

/-- Embedded from the page: `acc[scope] = (acc[scope] || 0) + e.total_co2e`
on a JS object — update the existing key in place, or append a new key. -/
def addToScope (acc : List (String × ℚ)) (k : String) (v : ℚ) :
    List (String × ℚ) :=
  match acc with
  | [] => [(k, v)]
  | (k', v') :: rest =>
    if k' = k then (k', v' + v) :: rest else (k', v') :: addToScope rest k v

/-- Embedded from the page: the `byScope` grouping built by `reduce` over
the fetched rows. -/
def byScope (l : List EmissionRow) : List (String × ℚ) :=
  l.foldl (fun acc e => addToScope acc (scopeKey e.category) e.total_co2e) []

/-- Embedded from the page: the "Avg per Bill" card —
`emissions.length > 0 ? totalEmissions / emissions.length : 0`. -/
def avgPerBill (l : List EmissionRow) : ℚ :=
  if 0 < l.length then totalEmissions l / (l.length : ℚ) else 0

/-! ### Sample data

Concrete table rows and records taken from the demo transcript
(DEMO_GUIDE.md): the Dubai grid factor 0.432 kg CO2e/kWh, the California
grid factor 0.221 kg CO2e/kWh, and the 1250 kWh sample bill. -/

/-- Dubai grid entry, factor 0.432 kg CO2e/kWh. -/
def dubaiEntry : EmissionFactorEntry :=
  ⟨.electricity, "grid", "UAE", some "Dubai", 0.432, "kWh"⟩

/-- California grid entry, factor 0.221 kg CO2e/kWh. -/
def caEntry : EmissionFactorEntry :=
  ⟨.electricity, "grid", "USA", some "California", 0.221, "kWh"⟩

/-- The 1250 kWh sample bill, located in Dubai. -/
def dubaiRecord : ConsumptionRecord :=
  ⟨.electricity, "grid", "UAE", some "Dubai", 1250, "kWh"⟩

/-- The 1250 kWh sample bill, located in California. -/
def caRecord : ConsumptionRecord :=
  ⟨.electricity, "grid", "USA", some "California", 1250, "kWh"⟩

/-- A record expressed in Wh, exercising the Wh→kWh unit conversion. -/
def whRecord : ConsumptionRecord :=
  ⟨.electricity, "grid", "UAE", none, 500, "Wh"⟩

end Eco

namespace Eco

/-! ### Claims -/

/-- C1: for every consumption record and resolved factor entry with
convertible units, compute returns total_co2e = quantity × scale × factor
(scale 1 when the units agree); in particular 1250 kWh at 0.432 kg/kWh
gives exactly 540 kg, at 0.221 kg/kWh exactly 276.25 kg, and the
difference is 263.75 kg. -/
theorem spec_C1_compute_total :
    (∀ (r : ConsumptionRecord) (e : EmissionFactorEntry) (s : ℚ),
      0 ≤ r.quantity → unitScale r.unit e.unit = some s →
      compute r e = .ok ⟨r, e, r.quantity * s * e.factor⟩) ∧
    compute dubaiRecord dubaiEntry = .ok ⟨dubaiRecord, dubaiEntry, 540⟩ ∧
    compute caRecord caEntry = .ok ⟨caRecord, caEntry, 276.25⟩ ∧
    (540 : ℚ) - 276.25 = 263.75 := by
  refine ⟨fun r e s hq hs => ?_, ?_, ?_, by norm_num⟩
  · rw [compute, if_neg (not_lt.mpr hq), hs]
  · simp [compute, dubaiRecord, dubaiEntry, unitScale]
    norm_num
  · simp [compute, caRecord, caEntry, unitScale]
    norm_num

/-- Witness for C1: the universally quantified part applied to the Wh
record, exercising the Wh→kWh conversion with scale 1/1000. -/
theorem spec_C1_witness :
    compute whRecord dubaiEntry =
      .ok ⟨whRecord, dubaiEntry, whRecord.quantity * (1 / 1000) * dubaiEntry.factor⟩ :=
  spec_C1_compute_total.1 whRecord dubaiEntry (1 / 1000)
    (by norm_num [whRecord])
    (by rw [whRecord, dubaiEntry]; rw [unitScale]; norm_num; decide)

/-- C4: summarize computes percent_change as (current − previous) /
previous × 100 exactly when the previous total is nonzero, and as none
when the previous total is zero; in particular a single electricity
result of 540 with previous total 0 yields percent_change = none and
total_co2e = 540. -/
theorem spec_C4_percent_change :
    (∀ (results : List EmissionResult) (prev : ℚ),
      (prev = 0 → (summarize results prev).percent_change = none) ∧
      (prev ≠ 0 → (summarize results prev).percent_change =
        some (((summarize results prev).total_co2e - prev) / prev * 100))) ∧
    (summarize [⟨dubaiRecord, dubaiEntry, 540⟩] 0).percent_change = none ∧
    (summarize [⟨dubaiRecord, dubaiEntry, 540⟩] 0).total_co2e = 540 := by
  refine ⟨fun results prev => ⟨fun h0 => ?_, fun hne => ?_⟩, ?_, ?_⟩
  · simp [summarize, percentChange, h0]
  · simp [summarize, percentChange, hne]
  · simp [summarize, percentChange]
  · simp [summarize]

/-- Witness for C4: percent change of the empty summary against a
previous total of 100 is (0 − 100) / 100 × 100. -/
theorem spec_C4_witness :
    (summarize [] 100).percent_change =
      some (((summarize [] 100).total_co2e - 100) / 100 * 100) :=
  (spec_C4_percent_change.1 [] 100).2 (by norm_num)

/-- C5: summarize over the empty result collection returns total_co2e = 0
and an empty category breakdown, for any previous-period total. -/
theorem spec_C5_empty_summarize :
    ∀ prev : ℚ, (summarize [] prev).total_co2e = 0 ∧
      (summarize [] prev).breakdown = [] :=
  fun _ => ⟨rfl, rfl⟩

/-- Every scale factor in the fixed unit-conversion table is positive. -/
lemma unitScale_pos {u v : String} {s : ℚ} (h : unitScale u v = some s) :
    0 < s := by
  rw [unitScale] at h
  split_ifs at h <;> simp_all <;> norm_num [← h]

/-- A successful compute yields total_co2e = quantity × scale × factor. -/
lemma compute_ok {r : ConsumptionRecord} {e : EmissionFactorEntry}
    {res : EmissionResult} (h : compute r e = .ok res) :
    ∃ s, unitScale r.unit e.unit = some s ∧
      res.total_co2e = r.quantity * s * e.factor := by
  rw [compute] at h
  split_ifs at h
  rcases hs : unitScale r.unit e.unit with _ | s <;> rw [hs] at h
  · cases h
  · cases h
    exact ⟨s, rfl, rfl⟩

/-- C6: for a fixed factor entry with positive factor, compute is
strictly monotone in the quantity: for two records in the same unit that
both compute successfully, a strictly smaller quantity yields a strictly
smaller total_co2e. -/
theorem spec_C6_compute_monotone :
    ∀ (r₁ r₂ : ConsumptionRecord) (e : EmissionFactorEntry)
      (res₁ res₂ : EmissionResult),
      r₁.unit = r₂.unit → 0 < e.factor →
      compute r₁ e = .ok res₁ → compute r₂ e = .ok res₂ →
      r₁.quantity < r₂.quantity →
      res₁.total_co2e < res₂.total_co2e := by
  intro r₁ r₂ e res₁ res₂ hu hf h₁ h₂ hq
  obtain ⟨s₁, hs₁, ht₁⟩ := compute_ok h₁
  obtain ⟨s₂, hs₂, ht₂⟩ := compute_ok h₂
  rw [hu] at hs₁
  rw [hs₁] at hs₂
  cases hs₂
  have hspos : 0 < s₁ := unitScale_pos hs₁
  rw [ht₁, ht₂]
  exact mul_lt_mul_of_pos_right (mul_lt_mul_of_pos_right hq hspos) hf

/-- Witness for C6: two 1250-vs-2000 kWh records against the Dubai grid
factor. -/
theorem spec_C6_witness :
    (⟨dubaiRecord, dubaiEntry, 540⟩ : EmissionResult).total_co2e <
      (⟨⟨.electricity, "grid", "UAE", some "Dubai", 2000, "kWh"⟩,
        dubaiEntry, 864⟩ : EmissionResult).total_co2e :=
  spec_C6_compute_monotone dubaiRecord
    ⟨.electricity, "grid", "UAE", some "Dubai", 2000, "kWh"⟩ dubaiEntry _ _
    rfl (by norm_num [dubaiEntry])
    (by rw [compute, dubaiRecord]; norm_num [unitScale, dubaiEntry])
    (by rw [compute]; norm_num [unitScale, dubaiEntry])
    (by norm_num [dubaiRecord])

/-- Permuted lists agree on `any`. -/
lemma perm_any {α} {l₁ l₂ : List α} (p : α → Bool) (h : l₁.Perm l₂) :
    l₁.any p = l₂.any p := by
  rw [Bool.eq_iff_iff]
  simp only [List.any_eq_true]
  constructor
  · rintro ⟨x, hx, hp⟩
    exact ⟨x, h.mem_iff.mp hx, hp⟩
  · rintro ⟨x, hx, hp⟩
    exact ⟨x, h.mem_iff.mpr hx, hp⟩

/-- Permuted result lists have the same per-category subtotals. -/
lemma subtotal_perm {l₁ l₂ : List EmissionResult} (h : l₁.Perm l₂)
    (c : Category) : subtotal l₁ c = subtotal l₂ c :=
  ((h.filter _).map _).sum_eq

/-- summarize is invariant under permutation of its input collection. -/
lemma summarize_perm {l₁ l₂ : List EmissionResult} (prev : ℚ)
    (h : l₁.Perm l₂) : summarize l₁ prev = summarize l₂ prev := by
  have htot : (l₁.map (·.total_co2e)).sum = (l₂.map (·.total_co2e)).sum :=
    (h.map _).sum_eq
  have hpresent :
      (allCategories.filter fun c =>
        l₁.any fun x => decide (x.record.category = c)) =
      (allCategories.filter fun c =>
        l₂.any fun x => decide (x.record.category = c)) := by
    apply List.filter_congr
    intro c _
    exact perm_any _ h
  rw [summarize, summarize, htot, hpresent]
  have hmap :
      ((allCategories.filter fun c =>
          l₂.any fun x => decide (x.record.category = c)).map
        fun c => (c, subtotal l₁ c)) =
      ((allCategories.filter fun c =>
          l₂.any fun x => decide (x.record.category = c)).map
        fun c => (c, subtotal l₂ c)) := by
    apply List.map_congr_left
    intro c _
    rw [subtotal_perm h]
  rw [hmap]

/-- C7: every breakdown produced by summarize is ordered by descending
subtotal with ties broken by category name ascending, and summarize is a
deterministic function of the input multiset: permuted inputs produce the
same PeriodSummary. -/
theorem spec_C7_breakdown_order :
    ∀ (l₁ l₂ : List EmissionResult) (prev : ℚ),
      List.Pairwise
        (fun x y : Category × ℚ =>
          y.2 < x.2 ∨ (x.2 = y.2 ∧ catName x.1 ≤ catName y.1))
        (summarize l₁ prev).breakdown ∧
      (l₁.Perm l₂ → summarize l₁ prev = summarize l₂ prev) := by
  intro l₁ l₂ prev
  constructor
  · exact List.sorted_insertionSort bdLe _
  · exact summarize_perm prev

/-- Witness for C7: two two-element collections that are permutations of
each other yield the same summary, whose breakdown is ordered. -/
theorem spec_C7_witness :
    List.Pairwise
      (fun x y : Category × ℚ =>
        y.2 < x.2 ∨ (x.2 = y.2 ∧ catName x.1 ≤ catName y.1))
      (summarize [⟨dubaiRecord, dubaiEntry, 540⟩, ⟨caRecord, caEntry, 276.25⟩]
        0).breakdown ∧
    summarize [⟨dubaiRecord, dubaiEntry, 540⟩, ⟨caRecord, caEntry, 276.25⟩] 0 =
      summarize [⟨caRecord, caEntry, 276.25⟩, ⟨dubaiRecord, dubaiEntry, 540⟩] 0 :=
  ⟨(spec_C7_breakdown_order _ [] 0).1,
    (spec_C7_breakdown_order _ _ 0).2
      (List.Perm.swap (⟨caRecord, caEntry, 276.25⟩ : EmissionResult)
        (⟨dubaiRecord, dubaiEntry, 540⟩ : EmissionResult) [])⟩

/-- Every batch input lands in exactly one of the two output lists. -/
lemma computeBatch_length
    (inputs : List (ConsumptionRecord × EmissionFactorEntry)) :
    (computeBatch inputs).1.length + (computeBatch inputs).2.length =
      inputs.length := by
  induction inputs with
  | nil => rfl
  | cons p rest ih =>
    simp only [computeBatch] at ih ⊢
    rcases h : compute p.1 p.2 with err | res <;>
      simp [List.filterMap_cons, h] <;> omega

/-- C8: every error is local to the record that caused it — the batch
counts add up (each input becomes exactly one success or one failure),
and a failing record inserted anywhere leaves the summary of the
remaining records unchanged while its failure is collected alongside. -/
theorem spec_C8_batch_error_locality :
    ∀ (inputs l₁ l₂ : List (ConsumptionRecord × EmissionFactorEntry))
      (r : ConsumptionRecord) (e : EmissionFactorEntry) (err : EcoError)
      (prev : ℚ),
      ((computeBatch inputs).1.length + (computeBatch inputs).2.length =
        inputs.length) ∧
      (compute r e = .error err →
        summarizeBatch (l₁ ++ (r, e) :: l₂) prev =
          ((summarizeBatch (l₁ ++ l₂) prev).1,
            (computeBatch l₁).2 ++ (r, err) :: (computeBatch l₂).2)) := by
  intro inputs l₁ l₂ r e err prev
  refine ⟨computeBatch_length inputs, fun herr => ?_⟩
  simp [summarizeBatch, computeBatch, List.filterMap_append,
    List.filterMap_cons, herr]

/-- Witness for C8: a liters-vs-kWh record fails with UnitMismatchError
between two good records, and the batch still summarizes the good pair. -/
theorem spec_C8_witness :
    summarizeBatch
        [(dubaiRecord, dubaiEntry),
         (⟨.electricity, "grid", "UAE", none, 30, "L"⟩, dubaiEntry),
         (caRecord, caEntry)] 0 =
      ((summarizeBatch [(dubaiRecord, dubaiEntry), (caRecord, caEntry)] 0).1,
        (computeBatch [(dubaiRecord, dubaiEntry)]).2 ++
          ((⟨.electricity, "grid", "UAE", none, 30, "L"⟩ : ConsumptionRecord),
            EcoError.unitMismatch) ::
            (computeBatch [(caRecord, caEntry)]).2) :=
  (spec_C8_batch_error_locality [] [(dubaiRecord, dubaiEntry)]
      [(caRecord, caEntry)] ⟨.electricity, "grid", "UAE", none, 30, "L"⟩
      dubaiEntry .unitMismatch 0).2
    rfl

/-- Updating one scope bucket adds exactly the added amount to the sum of
all bucket values. -/
lemma sum_addToScope (acc : List (String × ℚ)) (k : String) (v : ℚ) :
    ((addToScope acc k v).map (·.2)).sum = (acc.map (·.2)).sum + v := by
  induction acc with
  | nil => simp [addToScope]
  | cons p rest ih =>
    by_cases hk : p.1 = k
    · simp [addToScope, hk]
      ring
    · simp [addToScope, hk, ih]
      ring

/-- Folding rows into the scope buckets accumulates exactly the rows'
total CO2e on top of the starting buckets. -/
lemma sum_scopeFold (l : List EmissionRow) (acc : List (String × ℚ)) :
    (((l.foldl (fun acc e => addToScope acc (scopeKey e.category) e.total_co2e)
        acc)).map (·.2)).sum =
      (acc.map (·.2)).sum + (l.map (·.total_co2e)).sum := by
  induction l generalizing acc with
  | nil => simp
  | cons e rest ih =>
    simp only [List.foldl_cons, List.map_cons, List.sum_cons]
    rw [ih, sum_addToScope]
    ring

/-- totalEmissions is the plain sum of the rows' total CO2e. -/
lemma totalEmissions_eq_sum (l : List EmissionRow) :
    totalEmissions l = (l.map (·.total_co2e)).sum := by
  have aux : ∀ (m : List EmissionRow) (a : ℚ),
      m.foldl (fun s e => s + e.total_co2e) a = a + (m.map (·.total_co2e)).sum := by
    intro m
    induction m with
    | nil => simp
    | cons e rest ih =>
      intro a
      simp only [List.foldl_cons, List.map_cons, List.sum_cons, ih]
      ring
  rw [totalEmissions, aux]
  ring

/-- C9: in the dashboard aggregation every fetched row is assigned to
exactly one scope bucket (a missing category falls into "Other"), so
the sum of the byScope subtotals equals totalEmissions. -/
theorem spec_C9_byScope_partitions :
    ∀ l : List EmissionRow,
      scopeKey none = "Other" ∧
      ((byScope l).map (·.2)).sum = totalEmissions l := by
  intro l
  refine ⟨rfl, ?_⟩
  rw [byScope, sum_scopeFold, totalEmissions_eq_sum]
  simp

/-- C10: the average-per-bill card displays 0 for an empty emissions list
and divides the total by the list length only for a non-empty list. -/
theorem spec_C10_avg_guard :
    ∀ l : List EmissionRow,
      avgPerBill ([] : List EmissionRow) = 0 ∧
      (l ≠ [] → avgPerBill l = totalEmissions l / (l.length : ℚ)) := by
  intro l
  refine ⟨rfl, fun hne => ?_⟩
  rw [avgPerBill, if_pos (List.length_pos.mpr hne)]

/-- Witness for C10: a single 10 kg row averages to 10 / 1. -/
theorem spec_C10_witness :
    avgPerBill ([] : List EmissionRow) = 0 ∧
    avgPerBill [⟨1, some "Scope 2", 10⟩] =
      totalEmissions [⟨1, some "Scope 2", 10⟩] /
        (([⟨1, some "Scope 2", 10⟩] : List EmissionRow).length : ℚ) :=
  ⟨(spec_C10_avg_guard []).1,
    (spec_C10_avg_guard [⟨1, some "Scope 2", 10⟩]).2 (by simp)⟩

/-- An entry of a different category matches no lookup tier. -/
lemma not_match_of_category_ne {c : Category} {sub country : String}
    {region : Option String} {e : EmissionFactorEntry} (h : e.category ≠ c) :
    matchesExact c sub country region e = false ∧
    matchesCountry c sub country e = false ∧
    matchesGlobal c sub e = false := by
  simp [matchesExact, matchesCountry, matchesGlobal, h]

/-- A list containing an element satisfying the predicate has a find?
result. -/
lemma find_some_of_exists {α} {p : α → Bool} {l : List α}
    (h : ∃ x ∈ l, p x = true) : ∃ a, l.find? p = some a :=
  Option.isSome_iff_exists.mp (List.find?_isSome.mpr h)

/-- resolve reaches the UnknownFactorError branch exactly when no entry
of the table matches any of the three lookup tiers. -/
lemma resolve_error_iff (tbl : List EmissionFactorEntry) (c : Category)
    (sub country : String) (region : Option String) :
    resolve tbl c sub country region = .error .unknownFactor ↔
      ∀ e ∈ tbl, matchesExact c sub country region e = false ∧
        matchesCountry c sub country e = false ∧
        matchesGlobal c sub e = false := by
  constructor
  · intro herr e he
    rcases h1 : tbl.find? (matchesExact c sub country region) with _ | f
    · rcases h2 : tbl.find? (matchesCountry c sub country) with _ | f
      · rcases h3 : tbl.find? (matchesGlobal c sub) with _ | f
        · exact ⟨by simpa using List.find?_eq_none.mp h1 e he,
            by simpa using List.find?_eq_none.mp h2 e he,
            by simpa using List.find?_eq_none.mp h3 e he⟩
        · simp [resolve, h1, h2, h3] at herr
      · simp [resolve, h1, h2] at herr
    · simp [resolve, h1] at herr
  · intro hall
    have h1 : tbl.find? (matchesExact c sub country region) = none :=
      List.find?_eq_none.mpr fun x hx => by simp [(hall x hx).1]
    have h2 : tbl.find? (matchesCountry c sub country) = none :=
      List.find?_eq_none.mpr fun x hx => by simp [(hall x hx).2.1]
    have h3 : tbl.find? (matchesGlobal c sub) = none :=
      List.find?_eq_none.mpr fun x hx => by simp [(hall x hx).2.2]
    simp [resolve, h1, h2, h3]

/-- C2 (amended): resolve tries the tiers in order — exact match first,
then country default, then global default — and raises UnknownFactorError
exactly when no entry matches any tier; a category absent from the table
always errors, and a query whose region has no entry but whose country
default exists (same category and subtype) resolves to the country
default with matched_scope = country-default. -/
theorem spec_C2_lookup_order :
    ∀ (tbl : List EmissionFactorEntry) (c : Category) (sub country : String)
      (region : Option String),
      ((∀ e ∈ tbl, e.category ≠ c) →
        resolve tbl c sub country region = .error .unknownFactor) ∧
      (resolve tbl c sub country region = .error .unknownFactor ↔
        ∀ e ∈ tbl, matchesExact c sub country region e = false ∧
          matchesCountry c sub country e = false ∧
          matchesGlobal c sub e = false) ∧
      ((∃ e ∈ tbl, matchesExact c sub country region e = true) →
        ∃ res, resolve tbl c sub country region = .ok res ∧
          res.matched_scope = .exact) ∧
      ((∀ e ∈ tbl, matchesExact c sub country region e = false) →
        (∃ e ∈ tbl, matchesCountry c sub country e = true) →
        ∃ res, resolve tbl c sub country region = .ok res ∧
          res.matched_scope = .countryDefault) := by
  intro tbl c sub country region
  refine ⟨?_, resolve_error_iff tbl c sub country region, ?_, ?_⟩
  · intro hcat
    exact (resolve_error_iff tbl c sub country region).mpr fun e he =>
      not_match_of_category_ne (hcat e he)
  · intro hex
    obtain ⟨f, hf⟩ := find_some_of_exists hex
    exact ⟨⟨f.factor, f.unit, .exact⟩, by simp [resolve, hf], rfl⟩
  · intro hnoexact hcountry
    have h1 : tbl.find? (matchesExact c sub country region) = none :=
      List.find?_eq_none.mpr fun x hx => by simp [hnoexact x hx]
    obtain ⟨f, hf⟩ := find_some_of_exists hcountry
    exact ⟨⟨f.factor, f.unit, .countryDefault⟩, by simp [resolve, h1, hf], rfl⟩

/-- Reference table for the C2 counterexample: the electricity category
is present, but only through a region-specific row. -/
def tblA : List EmissionFactorEntry := [dubaiEntry]

/-- C2 counterexample: the category electricity is present in the table,
yet resolving it (same category, subtype and country, but no region)
still raises UnknownFactorError — so the error is not equivalent to the
category being absent. -/
theorem spec_C2_counterexample :
    (∃ e ∈ tblA, e.category = Category.electricity) ∧
    resolve tblA .electricity "grid" "UAE" none = .error .unknownFactor :=
  ⟨by decide, rfl⟩

/-- Witness for C2: with a Dubai row and a UAE country-default row, a
query for the unknown region "Abu Dhabi" resolves to the country default. -/
theorem spec_C2_witness :
    ∃ res,
      resolve [dubaiEntry, ⟨.electricity, "grid", "UAE", none, 0.45, "kWh"⟩]
        .electricity "grid" "UAE" (some "Abu Dhabi") = .ok res ∧
      res.matched_scope = .countryDefault :=
  (spec_C2_lookup_order
      [dubaiEntry, ⟨.electricity, "grid", "UAE", none, 0.45, "kWh"⟩]
      .electricity "grid" "UAE" (some "Abu Dhabi")).2.2.2
    (by decide) (by decide)

/-- C3 (amended): under the strengthened invariant that every
(category, subtype) pair present in the table also has a global default
entry (same category and subtype, country "default", no region), resolve
never reaches the UnknownFactorError branch on any query whose category
and subtype are present, and reports one of the three scopes. -/
theorem spec_C3_resolution_never_fails :
    ∀ (tbl : List EmissionFactorEntry) (c : Category) (sub country : String)
      (region : Option String),
      (∀ e ∈ tbl, ∃ d ∈ tbl, d.category = e.category ∧ d.subtype = e.subtype ∧
        d.country = "default" ∧ d.region = none) →
      (∃ e ∈ tbl, e.category = c ∧ e.subtype = sub) →
      ∃ res, resolve tbl c sub country region = .ok res ∧
        (res.matched_scope = .exact ∨ res.matched_scope = .countryDefault ∨
          res.matched_scope = .globalDefault) := by
  intro tbl c sub country region hinv hpres
  obtain ⟨e, he, hc, hs⟩ := hpres
  obtain ⟨d, hd, hdc, hds, hdcountry, hdreg⟩ := hinv e he
  have hglob : matchesGlobal c sub d = true := by
    simp [matchesGlobal, hdc, hds, hdcountry, hdreg, hc, hs]
  rcases h1 : tbl.find? (matchesExact c sub country region) with _ | f
  · rcases h2 : tbl.find? (matchesCountry c sub country) with _ | f
    · rcases h3 : tbl.find? (matchesGlobal c sub) with _ | f
      · exfalso
        have := List.find?_eq_none.mp h3 d hd
        simp [hglob] at this
      · exact ⟨⟨f.factor, f.unit, .globalDefault⟩,
          by simp [resolve, h1, h2, h3], Or.inr (Or.inr rfl)⟩
    · exact ⟨⟨f.factor, f.unit, .countryDefault⟩,
        by simp [resolve, h1, h2], Or.inr (Or.inl rfl)⟩
  · exact ⟨⟨f.factor, f.unit, .exact⟩, by simp [resolve, h1], Or.inl rfl⟩

/-- Reference table for the C3 counterexample: every category has an
entry with no region (the claimed invariant), electricity is present for
the UAE, yet the solar query below still errors. -/
def tblC : List EmissionFactorEntry :=
  [⟨.electricity, "grid", "UAE", none, 0.45, "kWh"⟩,
   ⟨.electricity, "solar", "UAE", some "Dubai", 0.1, "kWh"⟩,
   ⟨.fuel, "diesel", "default", none, 2.68, "L"⟩,
   ⟨.water, "municipal", "default", none, 0.34, "m3"⟩,
   ⟨.waste, "landfill", "default", none, 0.58, "kg"⟩]

/-- C3 counterexample: the table satisfies the claimed invariant (every
category has an entry with no region) and the pair (electricity, UAE) is
present, yet resolve on the solar subtype for the UAE reaches the
UnknownFactorError branch. -/
theorem spec_C3_counterexample :
    (∀ cat : Category, ∃ d ∈ tblC, d.category = cat ∧ d.region = none) ∧
    (∃ e ∈ tblC, e.category = .electricity ∧ e.country = "UAE") ∧
    resolve tblC .electricity "solar" "UAE" none = .error .unknownFactor :=
  ⟨fun cat => by cases cat <;> decide, by decide, rfl⟩

/-- Witness for C3: a table holding only a global default row satisfies
the strengthened invariant, and an unlisted country resolves through the
global default tier. -/
theorem spec_C3_witness :
    ∃ res,
      resolve [⟨.electricity, "grid", "default", none, 0.475, "kWh"⟩]
        .electricity "grid" "France" (some "Paris") = .ok res ∧
      (res.matched_scope = .exact ∨ res.matched_scope = .countryDefault ∨
        res.matched_scope = .globalDefault) :=
  spec_C3_resolution_never_fails
    [⟨.electricity, "grid", "default", none, 0.475, "kWh"⟩]
    .electricity "grid" "France" (some "Paris") (by decide) (by decide)

end Eco
